import Mathlib

/-!
Verification of the face-extraction pipeline (faceapi).

Shallow embedding of the core of the repository:
- domain/models.py: BoundingBox, DetectedFace, ExtractionResult, HealthStatus
- infrastructure/insightface_detector.py: InsightFaceDetector.extract_faces, get_health
- infrastructure/image_loader.py: ImageLoader.load_from_url, load_from_bytes, _decode_image
- application/face_service.py: FaceExtractionService.extract_from_url, extract_from_bytes

Pixel coordinates and confidences are modelled as rationals; the opaque
detection model (self.model.get) is a parameter returning either a list of
raw face observations or an exception message; the wall-clock elapsed time
of the detection phase is a parameter (the code measures it with time.time).
Each distinct return-None site of the image loader is labelled with the
error kind the spec gives it (FetchError, TooLargeError, DecodeError); the
service layer treats every labelled error as the Python None.
-/

namespace FaceApi

/-- Configuration values consumed by the core (config/settings.py). -/
structure Config where
  MODEL_NAME : String
  MAX_FACES : Nat
  MIN_CONFIDENCE : ℚ
  MAX_IMAGE_SIZE : Nat
deriving DecidableEq

/-- Decoded raster image (numpy ndarray): shape gives height and width;
pixel content is abstract. -/
structure PixelImage where
  width : Nat
  height : Nat
  pixels : List Nat
deriving DecidableEq

/-- Normalized face bounding box (domain/models.py BoundingBox). -/
structure BoundingBox where
  x : ℚ
  y : ℚ
  width : ℚ
  height : ℚ
deriving DecidableEq

/-- Detected face with embedding (domain/models.py DetectedFace); landmarks
are not produced by the detector adapter and are omitted. -/
structure DetectedFace where
  bbox : BoundingBox
  embedding : List ℚ
  confidence : ℚ
deriving DecidableEq

/-- Result envelope (domain/models.py ExtractionResult); error defaults to
None and processing_time_ms to 0, as in the dataclass. -/
structure ExtractionResult where
  success : Bool
  faces : List DetectedFace
  error : Option String := none
  processing_time_ms : Nat := 0
deriving DecidableEq

/-- Service health status (domain/models.py HealthStatus). The dataclass
field holding the model name is called model. -/
structure HealthStatus where
  status : String
  model : String
  version : String
deriving DecidableEq

/-- Serialization of HealthStatus (domain/models.py HealthStatus.to_dict):
the exact keys and values of the emitted dictionary, in order. -/
def HealthStatus.to_dict (h : HealthStatus) : List (String × String) :=
  [("status", h.status), ("model", h.model), ("version", h.version)]

/-- One raw face observation from the opaque model: pixel-space box corners,
an optional detection score (hasattr(face, 'det_score')) and an optional
embedding (face.embedding may be None). -/
structure RawFace where
  x1 : ℚ
  y1 : ℚ
  x2 : ℚ
  y2 : ℚ
  det_score : Option ℚ
  embedding : Option (List ℚ)
deriving DecidableEq

/-- The opaque model call self.model.get(image, max_num): given the image
and the max-face cap it either returns raw observations or raises, which we
model as an exception message. -/
abbrev Model : Type := PixelImage → Nat → Except String (List RawFace)

/-- Bounding-box normalization of insightface_detector.py lines 87-91:
norm_x = max(0, x1) / width, norm_y = max(0, y1) / height,
norm_width = min(x2 - x1, width - x1) / width,
norm_height = min(y2 - y1, height - y1) / height. -/
def normalizeBBox (width height : Nat) (x1 y1 x2 y2 : ℚ) : BoundingBox where
  x := max 0 x1 / width
  y := max 0 y1 / height
  width := min (x2 - x1) (width - x1) / width
  height := min (y2 - y1) (height - y1) / height

/-- Confidence of a raw observation (line 97): float(face.det_score) if the
attribute exists, else 0.0. -/
def rawConfidence (f : RawFace) : ℚ :=
  match f.det_score with
  | some s => s
  | none => 0

/-- The DetectedFace built from one raw observation (lines 83-112):
normalized box, embedding passed through (empty list when absent),
confidence from the raw score. -/
def buildFace (width height : Nat) (f : RawFace) : DetectedFace where
  bbox := normalizeBBox width height f.x1 f.y1 f.x2 f.y2
  embedding := f.embedding.getD []
  confidence := rawConfidence f

/-- Per-observation step of the loop body (lines 82-112): observations with
confidence below MIN_CONFIDENCE are skipped (continue), the rest are
appended. -/
def processFace (cfg : Config) (width height : Nat) (f : RawFace) :
    Option DetectedFace :=
  if rawConfidence f < cfg.MIN_CONFIDENCE then none
  else some (buildFace width height f)

/-- InsightFaceDetector.extract_faces (insightface_detector.py lines 62-130).
inited is self.is_initialized; elapsed is the measured detection wall time
in whole milliseconds. -/
def extract_faces (cfg : Config) (inited : Bool) (model : Model)
    (img : PixelImage) (elapsed : Nat) : ExtractionResult :=
  match inited with
  | false =>
      { success := false, faces := [], error := some "Model not initialized" }
  | true =>
      match model img cfg.MAX_FACES with
      | .ok raws =>
          { success := true,
            faces := raws.filterMap (processFace cfg img.width img.height),
            processing_time_ms := elapsed }
      | .error e =>
          { success := false, faces := [], error := some e,
            processing_time_ms := elapsed }

/-- InsightFaceDetector.get_health (lines 132-138). -/
def get_health (cfg : Config) (inited : Bool) : HealthStatus where
  status := if inited then "ok" else "error"
  model := cfg.MODEL_NAME
  version := "0.7.3"

/-- Encoded image bytes. -/
abbrev ByteSeq : Type := List Nat

/-- The distinct failure kinds of the image loader, one per return-None site
(spec section 7 taxonomy). -/
inductive LoadError where
  | fetchError
  | tooLargeError
  | decodeError
deriving DecidableEq

/-- An HTTP response as seen by load_from_url: whether raise_for_status
passes, the Content-Type header, the Content-Length header when present,
and the body bytes. -/
structure HttpResponse where
  statusOk : Bool
  contentType : String
  contentLength : Option Nat
  body : ByteSeq

/-- A codec backend: a whole decode path (open, channel conversion, BGR
permutation) yielding an image or failing. pil stands for the primary PIL
path of _decode_image, cv for the cv2.imdecode fallback. -/
abbrev Codec : Type := ByteSeq → Option PixelImage

/-- ImageLoader._decode_image (image_loader.py lines 76-110): try the
primary path; on any failure fall back to the secondary path; None when
both fail. -/
def decode_image (pil cv : Codec) (data : ByteSeq) : Option PixelImage :=
  match pil data with
  | some img => some img
  | none =>
      match cv data with
      | some img => some img
      | none => none

/-- ImageLoader.load_from_bytes (lines 63-74): if len(data) exceeds
MAX_IMAGE_SIZE fail as too large, otherwise decode. -/
def load_from_bytes (cfg : Config) (pil cv : Codec) (data : ByteSeq) :
    Except LoadError PixelImage :=
  if cfg.MAX_IMAGE_SIZE < List.length data then .error .tooLargeError
  else
    match decode_image pil cv data with
    | some img => .ok img
    | none => .error .decodeError

/-- ImageLoader.load_from_url (lines 29-61): failed GET or bad status is a
fetch failure; then the declared Content-Length, defaulting to 0 when the
header is absent (int(response.headers.get('Content-Length', 0))), is
compared against MAX_IMAGE_SIZE; only then is the body decoded. The
content-type check (lines 42-44) only logs and is not modelled. -/
def load_from_url (cfg : Config) (pil cv : Codec) (resp : HttpResponse) :
    Except LoadError PixelImage :=
  match resp.statusOk with
  | false => .error .fetchError
  | true =>
      if cfg.MAX_IMAGE_SIZE < resp.contentLength.getD 0 then
        .error .tooLargeError
      else
        match decode_image pil cv resp.body with
        | some img => .ok img
        | none => .error .decodeError

/-- FaceExtractionService.extract_from_url (face_service.py lines 23-35):
a None from the loader becomes the fixed failure envelope, otherwise the
detector runs. -/
def extract_from_url (cfg : Config) (pil cv : Codec) (inited : Bool)
    (model : Model) (resp : HttpResponse) (elapsed : Nat) : ExtractionResult :=
  match load_from_url cfg pil cv resp with
  | .error _ =>
      { success := false, faces := [],
        error := some "Failed to load image from URL" }
  | .ok img => extract_faces cfg inited model img elapsed

/-- FaceExtractionService.extract_from_bytes (face_service.py lines 37-49). -/
def extract_from_bytes (cfg : Config) (pil cv : Codec) (inited : Bool)
    (model : Model) (data : ByteSeq) (elapsed : Nat) : ExtractionResult :=
  match load_from_bytes cfg pil cv data with
  | .error _ =>
      { success := false, faces := [], error := some "Failed to decode image" }
  | .ok img => extract_faces cfg inited model img elapsed

/-- The invariant the spec claims for every normalized bounding box:
coordinates in the unit interval, no negative values, box inside the unit
square. -/
def NormalizedBoxInvariant (b : BoundingBox) : Prop :=
  0 ≤ b.x ∧ b.x ≤ 1 ∧ 0 ≤ b.y ∧ b.y ≤ 1 ∧
  0 ≤ b.width ∧ 0 ≤ b.height ∧
  b.x + b.width ≤ 1 ∧ b.y + b.height ≤ 1

instance (b : BoundingBox) : Decidable (NormalizedBoxInvariant b) := by
  unfold NormalizedBoxInvariant
  infer_instance

/-- The well-formedness of a result envelope claimed by the spec: a failed
result carries no faces, and an error message is present exactly on
failure. -/
def ResultInvariant (r : ExtractionResult) : Prop :=
  (r.success = false → r.faces = []) ∧ (r.error.isSome ↔ r.success = false)

/-! Concrete fixtures used by witnesses and counterexamples. -/

/-- The default configuration of config/settings.py: model buffalo_l,
MAX_FACES 50, MIN_CONFIDENCE 0.5, MAX_IMAGE_SIZE 10 MiB. -/
def defaultConfig : Config where
  MODEL_NAME := "buffalo_l"
  MAX_FACES := 50
  MIN_CONFIDENCE := 1 / 2
  MAX_IMAGE_SIZE := 10485760

/-- A fixed 100 by 100 test image. -/
def testImage : PixelImage := ⟨100, 100, []⟩

/-- A raw observation whose score is below the default threshold. -/
def lowRaw : RawFace := ⟨10, 10, 20, 20, some (1 / 4), none⟩

/-- A raw observation whose score is above the default threshold. -/
def highRaw : RawFace := ⟨0, 0, 50, 50, some (9 / 10), some [1, 2]⟩

/-- A model state returning one low-confidence and one high-confidence
observation for every image. -/
def testModel : Model := fun _ _ => .ok [lowRaw, highRaw]

/-- A codec that fails on every input. -/
def failCodec : Codec := fun _ => none

/-! ## C1: bounds of the normalized bounding box -/

/-- Claim C1 as stated is false: on a 100 by 100 image, the raw box
(x1, y1, x2, y2) = (-10, 0, 100, 50) normalizes to x = 0 and
width = min(110, 110)/100 = 11/10, so x + width exceeds 1: the clamping
formula does not bound boxes that extend past the left image edge. -/
theorem c1_counterexample :
    ¬ NormalizedBoxInvariant (normalizeBBox 100 100 (-10) 0 100 50) := by
  unfold NormalizedBoxInvariant normalizeBBox
  norm_num

/-- C1 (amended): for every image of positive width and height and every
raw box whose top-left corner lies inside the image (0 ≤ x1 ≤ width,
0 ≤ y1 ≤ height) and which is non-degenerate (x1 ≤ x2, y1 ≤ y2), the
normalized box satisfies 0 ≤ x ≤ 1, 0 ≤ y ≤ 1, x + width ≤ 1,
y + height ≤ 1 with no negative values, including boxes extending past the
right or bottom image bounds. -/
theorem c1_amended (w h : Nat) (x1 y1 x2 y2 : ℚ)
    (hw : 0 < w) (hh : 0 < h)
    (hx0 : 0 ≤ x1) (hx12 : x1 ≤ x2) (hxw : x1 ≤ (w : ℚ))
    (hy0 : 0 ≤ y1) (hy12 : y1 ≤ y2) (hyh : y1 ≤ (h : ℚ)) :
    NormalizedBoxInvariant (normalizeBBox w h x1 y1 x2 y2) := by
  have hwq : (0 : ℚ) < (w : ℚ) := by exact_mod_cast hw
  have hhq : (0 : ℚ) < (h : ℚ) := by exact_mod_cast hh
  have hxmax : max 0 x1 = x1 := max_eq_right hx0
  have hymax : max 0 y1 = y1 := max_eq_right hy0
  refine ⟨?_, ?_, ?_, ?_, ?_, ?_, ?_, ?_⟩
  · exact div_nonneg (le_max_left 0 x1) hwq.le
  · rw [normalizeBBox, hxmax]
    exact (div_le_one hwq).mpr hxw
  · exact div_nonneg (le_max_left 0 y1) hhq.le
  · rw [normalizeBBox, hymax]
    exact (div_le_one hhq).mpr hyh
  · exact div_nonneg (le_min (by linarith) (by linarith)) hwq.le
  · exact div_nonneg (le_min (by linarith) (by linarith)) hhq.le
  · rw [normalizeBBox, hxmax]
    rw [div_add_div_same, div_le_one hwq]
    have := min_le_right (x2 - x1) ((w : ℚ) - x1)
    linarith
  · rw [normalizeBBox, hymax]
    rw [div_add_div_same, div_le_one hhq]
    have := min_le_right (y2 - y1) ((h : ℚ) - y1)
    linarith

/-- Witness for C1 (amended) at the spec scenario: a 1000 by 500 image with
raw box (100, 100, 300, 400). -/
theorem c1_witness :
    NormalizedBoxInvariant (normalizeBBox 1000 500 100 100 300 400) :=
  c1_amended 1000 500 100 100 300 400 (by decide) (by decide) (by norm_num)
    (by norm_num) (by norm_num) (by norm_num) (by norm_num) (by norm_num)

/-! ## C5: unready detector -/

/-- C5: when the detector is not ready, extract_faces returns exactly the
envelope success = false, faces = [], error = "Model not initialized"
(with processing_time_ms 0), for every model, image and elapsed time: the
result does not depend on the model, so the model is never invoked while
unready. -/
theorem c5_not_ready (cfg : Config) (model : Model) (img : PixelImage)
    (elapsed : Nat) :
    extract_faces cfg false model img elapsed =
      { success := false, faces := [],
        error := some "Model not initialized", processing_time_ms := 0 } :=
  rfl

/-! ## C9: health status shape -/

/-- Claim C9 as stated is false: the serialized health status of the
default configuration carries the keys status, model, version — there is
no model_name field. -/
theorem c9_counterexample :
    (get_health defaultConfig true).to_dict.map Prod.fst ≠
      ["status", "model_name", "version"] := by
  decide

/-- C9 (amended): the health operation always returns a HealthStatus whose
status is "ok" when the model is ready and "error" otherwise, whose model
field is the configured model name, whose version is a string, and whose
serialized form carries exactly the keys status, model, version. -/
theorem c9_amended (cfg : Config) (inited : Bool) :
    (get_health cfg inited).status = (if inited then "ok" else "error") ∧
    (get_health cfg inited).model = cfg.MODEL_NAME ∧
    (get_health cfg inited).version = "0.7.3" ∧
    (get_health cfg inited).to_dict.map Prod.fst =
      ["status", "model", "version"] := by
  refine ⟨rfl, rfl, rfl, rfl⟩

/-! ## C2: confidence filtering preserves order -/

/-- The per-observation loop keeps exactly the observations at or above the
threshold, in order, mapping each kept one to its DetectedFace. -/
lemma filterMap_processFace (cfg : Config) (w h : Nat) (l : List RawFace) :
    l.filterMap (processFace cfg w h) =
      (l.filter fun f => decide (cfg.MIN_CONFIDENCE ≤ rawConfidence f)).map
        (buildFace w h) := by
  induction l with
  | nil => rfl
  | cons a t ih =>
    by_cases hc : rawConfidence a < cfg.MIN_CONFIDENCE
    · simp [List.filterMap_cons, List.filter_cons, processFace, hc,
        not_le.mpr hc, ih]
    · simp [List.filterMap_cons, List.filter_cons, processFace, hc,
        not_lt.mp hc, ih]

/-- C2: when the detector is ready and the model call returns the raw
observations raws, the faces of the result are exactly the observations
with confidence at least MIN_CONFIDENCE (a missing score counts as 0 via
rawConfidence), each turned into its DetectedFace, in the model's order:
below-threshold observations are absent and the rest are never re-sorted. -/
theorem c2_confidence_filter (cfg : Config) (model : Model)
    (img : PixelImage) (elapsed : Nat) (raws : List RawFace)
    (hmodel : model img cfg.MAX_FACES = .ok raws) :
    (extract_faces cfg true model img elapsed).faces =
      (raws.filter fun f => decide (cfg.MIN_CONFIDENCE ≤ rawConfidence f)).map
        (buildFace img.width img.height) := by
  simp only [extract_faces, hmodel]
  exact filterMap_processFace cfg img.width img.height raws

/-- Witness for C2: with the default threshold 0.5, the model returning a
0.25-confidence and then a 0.9-confidence observation yields exactly the
second one. -/
theorem c2_witness :
    (extract_faces defaultConfig true testModel testImage 5).faces =
      [buildFace 100 100 highRaw] := by
  have h := c2_confidence_filter defaultConfig testModel testImage 5
    [lowRaw, highRaw] rfl
  rw [h]
  have h1 : ¬ (defaultConfig.MIN_CONFIDENCE ≤ rawConfidence lowRaw) := by
    norm_num [defaultConfig, lowRaw, rawConfidence]
  have h2 : defaultConfig.MIN_CONFIDENCE ≤ rawConfidence highRaw := by
    norm_num [defaultConfig, highRaw, rawConfidence]
  simp [List.filter_cons, h1, h2, testImage]

/-! ## C3: the pipeline never raises -/

/-- Every result of extract_faces is a success with no error message or a
failure carrying one. -/
lemma extract_faces_shape (cfg : Config) (inited : Bool) (model : Model)
    (img : PixelImage) (elapsed : Nat) :
    ((extract_faces cfg inited model img elapsed).success = true ∧
      (extract_faces cfg inited model img elapsed).error = none) ∨
    ((extract_faces cfg inited model img elapsed).success = false ∧
      ∃ msg, (extract_faces cfg inited model img elapsed).error = some msg) := by
  cases inited with
  | false => exact Or.inr ⟨rfl, ⟨"Model not initialized", rfl⟩⟩
  | true =>
    cases hm : model img cfg.MAX_FACES with
    | error e => simp [extract_faces, hm]
    | ok raws => simp [extract_faces, hm]

/-- Every result of extract_from_url is a success with no error message or
a failure carrying one. -/
lemma extract_from_url_shape (cfg : Config) (pil cv : Codec) (inited : Bool)
    (model : Model) (resp : HttpResponse) (elapsed : Nat) :
    ((extract_from_url cfg pil cv inited model resp elapsed).success = true ∧
      (extract_from_url cfg pil cv inited model resp elapsed).error = none) ∨
    ((extract_from_url cfg pil cv inited model resp elapsed).success = false ∧
      ∃ msg, (extract_from_url cfg pil cv inited model resp elapsed).error =
        some msg) := by
  cases hl : load_from_url cfg pil cv resp with
  | error le => simp [extract_from_url, hl]
  | ok img =>
    simp only [extract_from_url, hl]
    exact extract_faces_shape cfg inited model img elapsed

/-- Every result of extract_from_bytes is a success with no error message
or a failure carrying one. -/
lemma extract_from_bytes_shape (cfg : Config) (pil cv : Codec)
    (inited : Bool) (model : Model) (data : ByteSeq) (elapsed : Nat) :
    ((extract_from_bytes cfg pil cv inited model data elapsed).success = true ∧
      (extract_from_bytes cfg pil cv inited model data elapsed).error = none) ∨
    ((extract_from_bytes cfg pil cv inited model data elapsed).success = false ∧
      ∃ msg, (extract_from_bytes cfg pil cv inited model data elapsed).error =
        some msg) := by
  cases hl : load_from_bytes cfg pil cv data with
  | error le => simp [extract_from_bytes, hl]
  | ok img =>
    simp only [extract_from_bytes, hl]
    exact extract_faces_shape cfg inited model img elapsed

/-- C3: for every configuration, codec pair, readiness state, model
behaviour, response and byte input, both entry operations return an
ExtractionResult that is either a success with no error or a failure
carrying an error message — every acquisition, decoding or detection
failure (including a model exception) is converted, never propagated. -/
theorem c3_never_raises (cfg : Config) (pil cv : Codec) (inited : Bool)
    (model : Model) (resp : HttpResponse) (data : ByteSeq) (e1 e2 : Nat) :
    (((extract_from_url cfg pil cv inited model resp e1).success = true ∧
      (extract_from_url cfg pil cv inited model resp e1).error = none) ∨
     ((extract_from_url cfg pil cv inited model resp e1).success = false ∧
      ∃ msg, (extract_from_url cfg pil cv inited model resp e1).error =
        some msg)) ∧
    (((extract_from_bytes cfg pil cv inited model data e2).success = true ∧
      (extract_from_bytes cfg pil cv inited model data e2).error = none) ∨
     ((extract_from_bytes cfg pil cv inited model data e2).success = false ∧
      ∃ msg, (extract_from_bytes cfg pil cv inited model data e2).error =
        some msg)) :=
  ⟨extract_from_url_shape cfg pil cv inited model resp e1,
   extract_from_bytes_shape cfg pil cv inited model data e2⟩

/-! ## C4: result envelope invariant -/

/-- extract_faces maintains the envelope invariant. -/
lemma extract_faces_inv (cfg : Config) (inited : Bool) (model : Model)
    (img : PixelImage) (elapsed : Nat) :
    ResultInvariant (extract_faces cfg inited model img elapsed) := by
  cases inited with
  | false => simp [ResultInvariant, extract_faces]
  | true =>
    cases hm : model img cfg.MAX_FACES with
    | error e => simp [ResultInvariant, extract_faces, hm]
    | ok raws => simp [ResultInvariant, extract_faces, hm]

/-- extract_from_url maintains the envelope invariant. -/
lemma extract_from_url_inv (cfg : Config) (pil cv : Codec) (inited : Bool)
    (model : Model) (resp : HttpResponse) (elapsed : Nat) :
    ResultInvariant (extract_from_url cfg pil cv inited model resp elapsed) := by
  cases hl : load_from_url cfg pil cv resp with
  | error le => simp [ResultInvariant, extract_from_url, hl]
  | ok img =>
    simp only [extract_from_url, hl]
    exact extract_faces_inv cfg inited model img elapsed

/-- extract_from_bytes maintains the envelope invariant. -/
lemma extract_from_bytes_inv (cfg : Config) (pil cv : Codec) (inited : Bool)
    (model : Model) (data : ByteSeq) (elapsed : Nat) :
    ResultInvariant (extract_from_bytes cfg pil cv inited model data elapsed) := by
  cases hl : load_from_bytes cfg pil cv data with
  | error le => simp [ResultInvariant, extract_from_bytes, hl]
  | ok img =>
    simp only [extract_from_bytes, hl]
    exact extract_faces_inv cfg inited model img elapsed

/-- C4: every result produced by extract_from_url, extract_from_bytes or
extract_faces satisfies the envelope invariant: failure implies an empty
faces list, and the error field is set exactly when success is false. -/
theorem c4_result_invariant (cfg : Config) (pil cv : Codec) (inited : Bool)
    (model : Model) (resp : HttpResponse) (data : ByteSeq) (img : PixelImage)
    (e1 e2 e3 : Nat) :
    ResultInvariant (extract_from_url cfg pil cv inited model resp e1) ∧
    ResultInvariant (extract_from_bytes cfg pil cv inited model data e2) ∧
    ResultInvariant (extract_faces cfg inited model img e3) :=
  ⟨extract_from_url_inv cfg pil cv inited model resp e1,
   extract_from_bytes_inv cfg pil cv inited model data e2,
   extract_faces_inv cfg inited model img e3⟩

/-- Witness for C4: the unready-detector result concretely has an empty
faces list and a set error field. -/
theorem c4_witness :
    (extract_faces defaultConfig false testModel testImage 0).faces = [] ∧
    (extract_faces defaultConfig false testModel testImage 0).error.isSome =
      true := by
  have h := (c4_result_invariant defaultConfig failCodec failCodec false
    testModel ⟨true, "", none, []⟩ [] testImage 0 0 0).2.2
  exact ⟨h.1 rfl, h.2.mpr rfl⟩

/-! ## C6: declared-size and byte-length limits -/

/-- C6: a response whose advertised Content-Length exceeds MAX_IMAGE_SIZE
makes load_from_url fail as too large for every codec pair — so before any
decode attempt — and a byte input longer than MAX_IMAGE_SIZE makes
load_from_bytes fail as too large for every codec pair, without decoding. -/
theorem c6_too_large (cfg : Config) (pil cv : Codec) (resp : HttpResponse)
    (data : ByteSeq) (n : Nat)
    (hs : resp.statusOk = true) (hn : resp.contentLength = some n)
    (hbig : cfg.MAX_IMAGE_SIZE < n)
    (hlen : cfg.MAX_IMAGE_SIZE < data.length) :
    load_from_url cfg pil cv resp = .error .tooLargeError ∧
    load_from_bytes cfg pil cv data = .error .tooLargeError := by
  constructor
  · simp only [load_from_url, hs, hn, Option.getD_some]
    rw [if_pos hbig]
  · simp only [load_from_bytes]
    rw [if_pos hlen]

/-- A response advertising 20000000 bytes (the spec scenario) with an
empty body. -/
def bigResp : HttpResponse := ⟨true, "image/jpeg", some 20000000, []⟩

/-- A byte input one byte over the 10 MiB default limit. -/
def bigData : ByteSeq := List.replicate 10485761 0

/-- Witness for C6 at the spec scenario: Content-Length 20000000 against
the default 10485760 limit, and an input one byte over the limit. -/
theorem c6_witness :
    load_from_url defaultConfig failCodec failCodec bigResp =
      .error .tooLargeError ∧
    load_from_bytes defaultConfig failCodec failCodec bigData =
      .error .tooLargeError :=
  c6_too_large defaultConfig failCodec failCodec bigResp bigData 20000000
    rfl rfl (by norm_num [defaultConfig])
    (by norm_num [defaultConfig, bigData, List.length_replicate])

/-! ## C7: primary-then-fallback decoding -/

/-- C7: _decode_image tries the primary path first and returns its image
when it succeeds; only when the primary path fails is the secondary path
consulted; the result is None exactly when both fail; and every returned
image comes from one of the two paths — never a partial or placeholder
image. -/
theorem c7_decode_fallback (pil cv : Codec) (data : ByteSeq) :
    (decode_image pil cv data = none ↔ pil data = none ∧ cv data = none) ∧
    (∀ img, pil data = some img → decode_image pil cv data = some img) ∧
    (∀ img, decode_image pil cv data = some img →
      pil data = some img ∨ (pil data = none ∧ cv data = some img)) := by
  cases hp : pil data with
  | some img => simp [decode_image, hp]
  | none =>
    cases hc : cv data with
    | some img => simp [decode_image, hp, hc]
    | none => simp [decode_image, hp, hc]

/-- Witness for C7: with both codec paths failing, decoding returns None. -/
theorem c7_witness : decode_image failCodec failCodec [] = none :=
  (c7_decode_fallback failCodec failCodec []).1.mpr ⟨rfl, rfl⟩

/-! ## C8: idempotence of extraction -/

/-- C8: two calls of extract_from_bytes with identical bytes against a
fixed readiness state, model behaviour and codec pair produce identical
faces sequences, whatever the two measured elapsed times are — the result
differs at most in processing_time_ms. -/
theorem c8_idempotent (cfg : Config) (pil cv : Codec) (inited : Bool)
    (model : Model) (data : ByteSeq) (e1 e2 : Nat) :
    (extract_from_bytes cfg pil cv inited model data e1).faces =
      (extract_from_bytes cfg pil cv inited model data e2).faces := by
  cases hl : load_from_bytes cfg pil cv data with
  | error le => simp [extract_from_bytes, hl]
  | ok img =>
    simp only [extract_from_bytes, hl]
    cases inited with
    | false => rfl
    | true =>
      cases hm : model img cfg.MAX_FACES with
      | error e => simp [extract_faces, hm]
      | ok raws => simp [extract_faces, hm]

/-! ## C10: only the declared length is checked -/

/-- C10: whenever the status check passes and the declared Content-Length
— taken as 0 when the header is absent — does not exceed MAX_IMAGE_SIZE,
load_from_url hands the full body to decoding, whatever the body's actual
length: the downloaded size is never compared against the limit. -/
theorem c10_header_only (cfg : Config) (pil cv : Codec) (resp : HttpResponse)
    (hs : resp.statusOk = true)
    (hlen : resp.contentLength.getD 0 ≤ cfg.MAX_IMAGE_SIZE) :
    load_from_url cfg pil cv resp =
      match decode_image pil cv resp.body with
      | some img => .ok img
      | none => .error .decodeError := by
  simp only [load_from_url, hs]
  rw [if_neg (not_lt.mpr hlen)]

/-- A response with no Content-Length header whose body is one byte over
the limit. -/
def sneakyResp : HttpResponse := ⟨true, "image/jpeg", none, bigData⟩

/-- Witness for C10: with the header absent, a body exceeding the limit is
still passed to the decoders (which here both fail, so the outcome is the
decode failure, not the size failure). -/
theorem c10_witness :
    load_from_url defaultConfig failCodec failCodec sneakyResp =
      .error .decodeError := by
  have h := c10_header_only defaultConfig failCodec failCodec sneakyResp rfl
    (by simp [sneakyResp, defaultConfig])
  rw [h]
  rfl

end FaceApi
